import Mathlib

/-
Verification of the birthday-wish-bot repository against its design
specification.

The development shallowly embeds the two state machines of the system:

* the gatekeeper progression protocol of the front end
  (src/public/script.js, function processInput), and
* the resilient relay and transcript persistence of the server
  (src/server.js: sendMessageWithRetry, saveMessage, the POST /api/chat
  handler, and the GET /api/admin/conversations handler).

JavaScript strings are modelled as lists of characters.  The external
world (the upstream AI service and the database) is modelled by explicit
behaviour parameters: the upstream is a function from the attempt index
to the outcome of that attempt, and the store is a state recording
whether the connection was established and from which operation index
onward inserts fail.
-/

namespace BirthdayBot

/-- Text is modelled as a list of characters (a JavaScript string). -/
abbrev Str := List Char

/-- Model of JavaScript `String.prototype.trim`: remove leading and
trailing whitespace (script.js line 90: `userInput.value.trim()`). -/
def jsTrim (s : Str) : Str :=
  ((s.dropWhile Char.isWhitespace).reverse.dropWhile Char.isWhitespace).reverse

/-- Model of JavaScript `String.prototype.toLowerCase` on the ASCII data
appearing in the sources (script.js lines 105 and 107). -/
def jsToLower (s : Str) : Str := s.map Char.toLower

/-- Helper of `jsIncludes`: the second list is a prefix of the first. -/
def startsWith : Str → Str → Bool
  | _, [] => true
  | [], _ :: _ => false
  | c :: cs, d :: ds => c == d && startsWith cs ds

/-- Model of JavaScript `hay.includes(needle)` (substring containment),
used in script.js line 107. -/
def jsIncludes : Str → Str → Bool
  | [], needle => needle == []
  | c :: rest, needle => startsWith (c :: rest) needle || jsIncludes rest needle

/-- The structured prompts of the front end (script.js lines 16-21). -/
def prompts : List Str :=
  [ ("Welcome! I am the Gemini-powered Birthday Bot. You must pass three trials of friendship to unlock your message. Send \x27START\x27 to begin!").toList
  , ("Alright, first trial! What is the slightly embarrassing code name we gave our favorite coffee shop? If you remember, enter it now!").toList
  , ("Excellent. Second Trial: What\x27s the title of the absolutely terrible movie we watched together and vowed never to speak of again? Give me the exact title!").toList
  , ("Final Trial: Enter the secret phrase we say every time we leave each other\x27s house. (This is the password!)").toList ]

/-- The accepted-answer sets, one per stage (script.js lines 24-33). -/
def answers : List (List Str) :=
  [ [ ("start").toList ]
  , [ ("[COFFEE SHOP KEYWORD]").toList, ("[COFFEE SHOP ALT]").toList ]
  , [ ("[MOVIE TITLE KEYWORD]").toList, ("[MOVIE TITLE ALT]").toList ]
  , [ ("[FINAL PASSWORD KEYWORD]").toList ] ]

/-- The outcome of a gatekeeper evaluation. -/
inductive Outcome
  | Advance
  | Retry
deriving DecidableEq

/-- The gatekeeper transition function, translated from the local answer
check of script.js lines 103-111: the lowercased input matches when it
contains some lowercased accepted answer of the current stage as a
substring; a match advances the stage by one, otherwise it is kept. -/
def evaluate (stage : Nat) (input : Str) : Outcome × Nat :=
  if stage < answers.length then
    if (answers.getD stage []).any (fun kw => jsIncludes (jsToLower input) (jsToLower kw)) then
      (Outcome.Advance, stage + 1)
    else
      (Outcome.Retry, stage)
  else
    (Outcome.Retry, stage)

/-- The property the specification quantifies over: the case-folded text
contains some case-folded accepted answer of stage `s` as a substring. -/
def ContainsAccepted (s : Nat) (t : Str) : Prop :=
  ∃ kw ∈ answers.getD s [], ∃ l r, jsToLower t = l ++ jsToLower kw ++ r

/-- An observable emission of the front end during one turn. -/
inductive FrontEvent
  | botMessage (text : Str)
  | imageMessage (url : Str)
  | confetti
deriving DecidableEq

/-- script.js line 35. -/
def FINAL_IMAGE_URL : Str := ("[LINK TO YOUR BIRTHDAY IMAGE/GIF HERE]").toList

/-- script.js line 36. -/
def FRIEND_NAME : Str := ("[Friend\x27s Name]").toList

/-- script.js line 37. -/
def YOUR_NAME : Str := ("[Your Name]").toList

/-- script.js line 38 (template literal spelled out as concatenation). -/
def FINAL_MESSAGE : Str :=
  ("ACCESS GRANTED! 🎉 Happy Birthday ").toList ++ FRIEND_NAME ++
    ("! Wishing you the best year ever. I love you! - ").toList ++ YOUR_NAME

/-- The confirmation notice of script.js line 117. -/
def confirmMessage : Str :=
  ("🤖 [Birthday Bot]: CONGRATULATIONS! Gemini has confirmed your friendship status. Preparing transmission...").toList

/-- The terminal reveal sequence of script.js lines 113-129: the
confirmation notice at once, the confetti and the reveal image after a
1000 ms timeout, and the final unlock message after a further 1000 ms
timeout.  Each entry carries the absolute delay in milliseconds. -/
def terminalSequence : List (Nat × FrontEvent) :=
  [ (0, FrontEvent.botMessage confirmMessage)
  , (1000, FrontEvent.confetti)
  , (1000, FrontEvent.imageMessage FINAL_IMAGE_URL)
  , (2000, FrontEvent.botMessage FINAL_MESSAGE) ]

/-- The relay instruction composed on a correct answer
(script.js line 133, template literal spelled out). -/
def advanceInstruction (input promptText : Str) : Str :=
  ("USER ANSWERED CORRECTLY: ").toList ++ input ++
    (". Prompt the next question: \"").toList ++ promptText ++
    ("\". Be humorous and congratulate the user.").toList

/-- The relay instruction composed on a wrong answer
(script.js line 136, template literal spelled out). -/
def retryInstruction (input promptText : Str) : Str :=
  ("USER ANSWERED INCORRECTLY: ").toList ++ input ++
    (" to the question: \"").toList ++ promptText ++
    ("\". Be humorous and mock them lightly, then ask the same question again.").toList

/-- The outcome of one invocation of the front-end input processor. -/
structure StepResult where
  newStage : Nat
  evaluated : Bool
  accepted : Bool
  relayCalled : Bool
  geminiInput : Option Str
  events : List (Nat × FrontEvent)
deriving DecidableEq

/-- Translation of the front-end input processor `processInput`
(script.js lines 89-137): trim the input and ignore it when empty;
while the stage indexes into `answers`, run the local answer check,
advance on a match, and on reaching the last stage emit the terminal
sequence without contacting the backend; otherwise compose the relay
instruction and contact the backend; beyond the last stage pass the raw
input through to the backend unchanged. -/
def processStep (stage : Nat) (raw : Str) : StepResult :=
  let input := jsTrim raw
  if input = [] then
    ⟨stage, false, false, false, none, []⟩
  else if stage < answers.length then
    let normalizedInput := jsToLower input
    let isCorrect := (answers.getD stage []).any fun kw => jsIncludes normalizedInput (jsToLower kw)
    if isCorrect then
      if stage + 1 = prompts.length then
        ⟨stage + 1, true, true, false, none, terminalSequence⟩
      else
        ⟨stage + 1, true, true, true, some (advanceInstruction input (prompts.getD (stage + 1) [])), []⟩
    else
      ⟨stage, true, false, true, some (retryInstruction input (prompts.getD stage [])), []⟩
  else
    ⟨stage, false, false, true, some input, []⟩

/-- Iterated front-end turns: the stage reached after a sequence of raw
inputs. -/
def runStages : Nat → List Str → Nat
  | s, [] => s
  | s, raw :: rest => runStages (processStep s raw).newStage rest

/-- The outcome of one upstream call (`chat.sendMessage`): a reply text,
or a rejection carrying an HTTP status code. -/
inductive SendOutcome
  | success (text : String)
  | httpError (status : Nat)
deriving DecidableEq

/-- The upstream service is modelled by the outcome it produces for each
attempt index of one run of the retry loop. -/
abbrev Upstream := Nat → SendOutcome

/-- The failures `sendMessageWithRetry` can surface: an immediately
propagated non-transient rejection, or the terminal failure thrown after
the retry budget is spent (server.js line 97). -/
inductive RelayError
  | nonTransient (status : Nat)
  | upstreamUnavailable
deriving DecidableEq

/-- One observable step of the retry loop: an upstream attempt, or a
backoff sleep of the given number of milliseconds. -/
inductive Step
  | attempt (i : Nat) (outcome : SendOutcome)
  | sleep (ms : Nat)
deriving DecidableEq

/-- The transient-failure classification of server.js line 87:
status 503 or 500. -/
def isTransientOutcome : SendOutcome → Bool
  | SendOutcome.httpError s => s == 503 || s == 500
  | SendOutcome.success _ => false

/-- The body of the retry loop of `sendMessageWithRetry` (server.js
lines 81-98), with `remaining` the number of loop iterations left, so
that the current attempt index is `i = retries - remaining`.  A success
returns the text; a transient rejection (status 503 or 500) sleeps
`2 ^ i * 1000` milliseconds when further attempts remain and continues;
any other rejection is rethrown at once; falling out of the loop throws
the terminal unavailability error.  The second component is the trace of
attempts and sleeps performed. -/
def retryGo (u : Upstream) (retries : Nat) : Nat → Except RelayError String × List Step
  | 0 => (Except.error RelayError.upstreamUnavailable, [])
  | remaining + 1 =>
    let i := retries - (remaining + 1)
    match u i with
    | SendOutcome.success t => (Except.ok t, [Step.attempt i (SendOutcome.success t)])
    | SendOutcome.httpError s =>
      if s == 503 || s == 500 then
        let rest := retryGo u retries remaining
        if i < retries - 1 then
          (rest.1, Step.attempt i (SendOutcome.httpError s) :: Step.sleep (2 ^ i * 1000) :: rest.2)
        else
          (rest.1, Step.attempt i (SendOutcome.httpError s) :: rest.2)
      else
        (Except.error (RelayError.nonTransient s), [Step.attempt i (SendOutcome.httpError s)])

/-- `sendMessageWithRetry` with its default budget of 3 attempts
(server.js line 81). -/
def sendMessageWithRetry (u : Upstream) : Except RelayError String × List Step :=
  retryGo u 3 3

/-- The delay, in milliseconds, that precedes each attempt of a trace:
sleeps accumulate into the pending delay of the next attempt. -/
def delaysBeforeAttempts : List Step → Nat → List Nat
  | [], _ => []
  | Step.sleep d :: rest, pending => delaysBeforeAttempts rest (pending + d)
  | Step.attempt _ _ :: rest, pending => pending :: delaysBeforeAttempts rest 0

/-- Recognizer of attempt steps. -/
def isAttemptStep : Step → Bool
  | Step.attempt _ _ => true
  | Step.sleep _ => false

/-- The number of upstream attempts recorded in a trace. -/
def attemptCount (tr : List Step) : Nat := tr.countP isAttemptStep

/-- The state of the transcript store: whether the connection was
established at startup (the global `db` of server.js line 18 is set),
from which insert-operation index onward the connected database fails,
how many inserts have succeeded, and the appended rows in order. -/
structure StoreState where
  connected : Bool
  failFrom : Nat
  ops : Nat
  rows : List (String × String)
deriving DecidableEq

/-- Translation of `saveMessage` (server.js lines 56-63): when the
connection was never established it logs and returns without error and
without persisting; otherwise the insert succeeds while the database is
healthy and throws once it fails. -/
def saveMessage (st : StoreState) (sender message : String) : Except Unit StoreState :=
  if !st.connected then
    Except.ok st
  else if st.ops < st.failFrom then
    Except.ok { st with ops := st.ops + 1, rows := st.rows ++ [(sender, message)] }
  else
    Except.error ()

/-- The response of the chat endpoint. -/
inductive ChatResponse
  | ok (botResponse : String)
  | badRequest (error : String)
  | serverError (error : String)
deriving DecidableEq

/-- The observable result of one chat request: the response sent to the
caller (`none` when the handler itself failed before answering), the
resulting store state, and whether the relay was invoked. -/
structure ChatResult where
  response : Option ChatResponse
  store : StoreState
  relayCalled : Bool
deriving DecidableEq

/-- The catch block of the chat handler (server.js lines 124-128): log
a diagnostic row under the sender string used by server.js line 126 and
answer with the generic 500 error; when that insert itself throws, the
rejection escapes the handler and no response is sent. -/
def chatCatch (st : StoreState) (message : String) (relayCalled : Bool) : ChatResult :=
  match saveMessage st "System Error" ("Failed to get Gemini response for: " ++ message) with
  | Except.ok st2 =>
    ⟨some (ChatResponse.serverError "Internal server error. Please try again."), st2, relayCalled⟩
  | Except.error _ => ⟨none, st, relayCalled⟩

/-- Translation of the POST /api/chat handler (server.js lines
108-129): a missing or empty (falsy) message is rejected with 400
before anything else; otherwise the user row is saved, the relay is
invoked, the bot row is saved and the reply is returned; any exception
along the way reaches the catch block. -/
def chatHandler (st : StoreState) (u : Upstream) (message : Option String) : ChatResult :=
  match message with
  | none => ⟨some (ChatResponse.badRequest "No message provided."), st, false⟩
  | some m =>
    if m = "" then
      ⟨some (ChatResponse.badRequest "No message provided."), st, false⟩
    else
      match saveMessage st "User" m with
      | Except.error _ => chatCatch st m false
      | Except.ok st1 =>
        match sendMessageWithRetry u with
        | (Except.ok text, _) =>
          match saveMessage st1 "Bot" text with
          | Except.ok st2 => ⟨some (ChatResponse.ok text), st2, true⟩
          | Except.error _ => chatCatch st1 m true
        | (Except.error _, _) => chatCatch st1 m true

/-- The response of the admin endpoint. -/
inductive AdminResponse
  | ok (rows : List (String × String))
  | err (status : Nat) (error : String)
deriving DecidableEq

/-- Translation of the GET /api/admin/conversations handler (server.js
lines 132-144): 503 when the connection was never established, the rows
in chronological order when the query succeeds, 500 when it throws.
The second component records whether a query was issued to the store. -/
def adminHandler (st : StoreState) : AdminResponse × Bool :=
  if !st.connected then
    (AdminResponse.err 503 "Database not ready.", false)
  else if st.ops < st.failFrom then
    (AdminResponse.ok st.rows, true)
  else
    (AdminResponse.err 500 "Could not retrieve conversations.", true)

/-! ### Substring containment -/

theorem startsWith_iff : ∀ hay needle : Str, startsWith hay needle = true ↔ ∃ r, hay = needle ++ r
  | hay, [] => by
    simp [startsWith]
  | [], d :: ds => by
    simp [startsWith]
  | c :: cs, d :: ds => by
    simp only [startsWith, Bool.and_eq_true, beq_iff_eq]
    constructor
    · rintro ⟨rfl, hs⟩
      obtain ⟨r, rfl⟩ := (startsWith_iff cs ds).1 hs
      exact ⟨r, rfl⟩
    · rintro ⟨r, hr⟩
      rw [List.cons_append, List.cons.injEq] at hr
      exact ⟨hr.1, (startsWith_iff cs ds).2 ⟨r, hr.2⟩⟩

theorem jsIncludes_iff : ∀ hay needle : Str, jsIncludes hay needle = true ↔ ∃ l r, hay = l ++ needle ++ r
  | [], needle => by
    simp only [jsIncludes, beq_iff_eq]
    constructor
    · rintro rfl
      exact ⟨[], [], rfl⟩
    · rintro ⟨l, r, h⟩
      have h1 := List.append_eq_nil.1 h.symm
      exact (List.append_eq_nil.1 h1.1).2
  | c :: cs, needle => by
    simp only [jsIncludes, Bool.or_eq_true, startsWith_iff, jsIncludes_iff cs needle]
    constructor
    · rintro (⟨r, hr⟩ | ⟨l, r, hr⟩)
      · exact ⟨[], r, by simpa using hr⟩
      · exact ⟨c :: l, r, by simp [hr]⟩
    · rintro ⟨l, r, hr⟩
      match l, hr with
      | [], hr => exact Or.inl ⟨r, by simpa using hr⟩
      | b :: l, hr =>
        simp only [List.cons_append, List.cons.injEq] at hr
        exact Or.inr ⟨l, r, hr.2⟩

/-- The boolean answer check of the gatekeeper agrees with the
substring-containment property of the specification. -/
theorem anyMatch_iff (s : Nat) (t : Str) :
    ((answers.getD s []).any fun kw => jsIncludes (jsToLower t) (jsToLower kw)) = true ↔
      ContainsAccepted s t := by
  rw [List.any_eq_true]
  constructor
  · rintro ⟨kw, hmem, hinc⟩
    obtain ⟨l, r, hlr⟩ := (jsIncludes_iff _ _).1 hinc
    exact ⟨kw, hmem, l, r, hlr⟩
  · rintro ⟨kw, hmem, l, r, hlr⟩
    exact ⟨kw, hmem, (jsIncludes_iff _ _).2 ⟨l, r, hlr⟩⟩

/-! ### C1: the gatekeeper transition -/

/-- C1: for every stage `s < K` and every input whose trimmed,
case-folded text contains some accepted answer of stage `s`
(case-folded) as a substring, `evaluate` returns `Advance` and the
stage becomes `s + 1`; for every input containing no such entry it
returns `Retry` and the stage is unchanged. -/
theorem evaluate_advance_on_match (s : Nat) (hs : s < answers.length) (raw : Str) :
    (ContainsAccepted s (jsTrim raw) →
      evaluate s (jsTrim raw) = (Outcome.Advance, s + 1)) ∧
    (¬ ContainsAccepted s (jsTrim raw) →
      evaluate s (jsTrim raw) = (Outcome.Retry, s)) := by
  constructor
  · intro h
    rw [evaluate, if_pos hs, if_pos ((anyMatch_iff s (jsTrim raw)).2 h)]
  · intro h
    rw [evaluate, if_pos hs, if_neg (fun hb => h ((anyMatch_iff s (jsTrim raw)).1 hb))]

/-- Witness for C1 at the concrete stage 0 and input `"  START "`. -/
theorem evaluate_advance_on_match_witness :
    evaluate 0 (jsTrim (("  START ").toList)) = (Outcome.Advance, 1) :=
  (evaluate_advance_on_match 0 (by decide) (("  START ").toList)).1
    ⟨("start").toList, by decide, [], [], by decide⟩

/-! ### C2 and C4: the retry loop -/

/-- C2: in a run of the retry loop in which all 3 configured attempts
take place, no delay precedes the first attempt, and the backoff delays
preceding the following attempts are `2 ^ 0` and `2 ^ 1` time units of
1000 milliseconds: the delays before the attempts are 0, 1 and 2 units. -/
theorem retry_backoff_delays (u : Upstream)
    (h0 : isTransientOutcome (u 0) = true) (h1 : isTransientOutcome (u 1) = true) :
    delaysBeforeAttempts (sendMessageWithRetry u).2 0 = [0 * 1000, 1 * 1000, 2 * 1000] := by
  rcases hu0 : u 0 with t0 | s0
  · rw [hu0] at h0
    simp [isTransientOutcome] at h0
  rcases hu1 : u 1 with t1 | s1
  · rw [hu1] at h1
    simp [isTransientOutcome] at h1
  rw [hu0] at h0
  rw [hu1] at h1
  simp only [isTransientOutcome] at h0 h1
  have htr : (sendMessageWithRetry u).2 =
      Step.attempt 0 (SendOutcome.httpError s0) :: Step.sleep 1000 ::
        Step.attempt 1 (SendOutcome.httpError s1) :: Step.sleep 2000 ::
          [Step.attempt 2 (u 2)] := by
    rw [show (sendMessageWithRetry u).2 = (retryGo u 3 3).2 from rfl]
    simp only [retryGo, hu0, hu1, h0, h1, if_true]
    norm_num
    rcases hu2 : u 2 with t2 | s2
    · simp [hu2]
    · simp only [hu2]
      split <;> simp
  rw [htr]
  simp [delaysBeforeAttempts]

/-- Witness for C2: an upstream rejecting every attempt with 500. -/
theorem retry_backoff_delays_witness :
    delaysBeforeAttempts (sendMessageWithRetry (fun _ => SendOutcome.httpError 500)).2 0 =
      [0 * 1000, 1 * 1000, 2 * 1000] :=
  retry_backoff_delays (fun _ => SendOutcome.httpError 500) (by decide) (by decide)

/-- C4: when all 3 bounded attempts fail with a transient
classification, the loop surfaces the terminal unavailability failure,
which is distinct from the propagation of a single transient error, and
performs exactly 3 attempts, no more. -/
theorem retries_exhausted_unavailable (u : Upstream)
    (h : ∀ i, i < 3 → isTransientOutcome (u i) = true) :
    (sendMessageWithRetry u).1 = Except.error RelayError.upstreamUnavailable ∧
    (∀ s, (sendMessageWithRetry u).1 ≠ Except.error (RelayError.nonTransient s)) ∧
    attemptCount (sendMessageWithRetry u).2 = 3 := by
  have h0 := h 0 (by omega)
  have h1 := h 1 (by omega)
  have h2 := h 2 (by omega)
  rcases hu0 : u 0 with t0 | s0
  · rw [hu0] at h0
    simp [isTransientOutcome] at h0
  rcases hu1 : u 1 with t1 | s1
  · rw [hu1] at h1
    simp [isTransientOutcome] at h1
  rcases hu2 : u 2 with t2 | s2
  · rw [hu2] at h2
    simp [isTransientOutcome] at h2
  rw [hu0] at h0
  rw [hu1] at h1
  rw [hu2] at h2
  simp only [isTransientOutcome] at h0 h1 h2
  refine ⟨?_, ?_, ?_⟩ <;>
    simp [sendMessageWithRetry, retryGo, hu0, hu1, hu2, h0, h1, h2,
      attemptCount, isAttemptStep]

/-- Witness for C4: an upstream rejecting every attempt with 503. -/
theorem retries_exhausted_unavailable_witness :
    (sendMessageWithRetry (fun _ => SendOutcome.httpError 503)).1 =
        Except.error RelayError.upstreamUnavailable ∧
    (∀ s, (sendMessageWithRetry (fun _ => SendOutcome.httpError 503)).1 ≠
        Except.error (RelayError.nonTransient s)) ∧
    attemptCount (sendMessageWithRetry (fun _ => SendOutcome.httpError 503)).2 = 3 :=
  retries_exhausted_unavailable (fun _ => SendOutcome.httpError 503) (fun _ _ => rfl)

/-! ### The chat and admin handlers -/

/-- With the store connection never established, `saveMessage` is a
silent no-op. -/
theorem saveMessage_disconnected (st : StoreState) (hc : st.connected = false)
    (sender message : String) : saveMessage st sender message = Except.ok st := by
  rw [saveMessage, if_pos (by simp [hc])]

/-- With an established healthy store, `saveMessage` appends one row. -/
theorem saveMessage_connected_ok (st : StoreState) (hc : st.connected = true)
    (hlt : st.ops < st.failFrom) (sender message : String) :
    saveMessage st sender message =
      Except.ok { st with ops := st.ops + 1, rows := st.rows ++ [(sender, message)] } := by
  rw [saveMessage, if_neg (by simp [hc]), if_pos hlt]

/-- With the store connection never established and a successful relay,
the chat handler returns the reply and leaves the store untouched. -/
theorem chatHandler_disconnected_ok (st : StoreState) (u : Upstream) (m t : String)
    (hm : m ≠ "") (hc : st.connected = false) (hu : (sendMessageWithRetry u).1 = Except.ok t) :
    chatHandler st u (some m) = ⟨some (ChatResponse.ok t), st, true⟩ := by
  rcases hrun : sendMessageWithRetry u with ⟨r, tr⟩
  rw [hrun] at hu
  simp only at hu
  subst hu
  simp only [chatHandler, if_neg hm, saveMessage_disconnected st hc, hrun]

/-- C3, corrected, counterexample: with an established store that fails
from its second insert onward, the user row is saved, the relay obtains
the reply, and only the bot-reply append fails; the handler does not
return the reply as a success response — the catch block runs, its own
diagnostic insert fails too, and no response at all is produced. -/
theorem botReply_append_failure_not_returned :
    (sendMessageWithRetry (fun _ => SendOutcome.success "HappyReply")).1 =
        Except.ok "HappyReply" ∧
    (chatHandler ⟨true, 1, 0, []⟩ (fun _ => SendOutcome.success "HappyReply")
        (some "hello")).response = none ∧
    (chatHandler ⟨true, 1, 0, []⟩ (fun _ => SendOutcome.success "HappyReply")
        (some "hello")).response ≠ some (ChatResponse.ok "HappyReply") := by
  refine ⟨rfl, rfl, ?_⟩
  intro h
  exact Option.noConfusion h

/-- C3, as amended: only when the store connection was never
established does the bot-reply append fail silently, in which case the
reply already obtained is still returned to the caller as a success
response. -/
theorem botReply_returned_when_store_disconnected (st : StoreState) (u : Upstream)
    (m t : String) (hm : m ≠ "") (hc : st.connected = false)
    (hu : (sendMessageWithRetry u).1 = Except.ok t) :
    (chatHandler st u (some m)).response = some (ChatResponse.ok t) := by
  rw [chatHandler_disconnected_ok st u m t hm hc hu]

/-- Witness for the amended C3. -/
theorem botReply_returned_when_store_disconnected_witness :
    (chatHandler ⟨false, 0, 0, []⟩ (fun _ => SendOutcome.success "yo")
        (some "hello")).response = some (ChatResponse.ok "yo") :=
  botReply_returned_when_store_disconnected ⟨false, 0, 0, []⟩
    (fun _ => SendOutcome.success "yo") "hello" "yo" (by decide) rfl rfl

/-- C5, corrected, counterexample: a whitespace-only but nonempty
message reaching the chat endpoint is not rejected: with a healthy
store and a successful upstream it is appended, relayed, and answered
with a success response. -/
theorem whitespace_message_not_rejected :
    (chatHandler ⟨true, 10, 0, []⟩ (fun _ => SendOutcome.success "reply")
        (some " ")).response = some (ChatResponse.ok "reply") ∧
    (chatHandler ⟨true, 10, 0, []⟩ (fun _ => SendOutcome.success "reply")
        (some " ")).store.rows = [("User", " "), ("Bot", "reply")] ∧
    (chatHandler ⟨true, 10, 0, []⟩ (fun _ => SendOutcome.success "reply")
        (some " ")).relayCalled = true :=
  ⟨rfl, rfl, rfl⟩

/-- C5, as amended: a missing or empty message is rejected with the 400
validation error before any collaborator is contacted — nothing is
appended and the relay is not invoked — and the front end silently
drops whitespace-only input before the gatekeeper evaluates or any
request is sent; but a whitespace-only nonempty message that reaches
the server directly is processed normally. -/
theorem empty_rejected_whitespace_dropped (st : StoreState) (u : Upstream)
    (s : Nat) (raw : Str) (hws : jsTrim raw = []) :
    chatHandler st u none = ⟨some (ChatResponse.badRequest "No message provided."), st, false⟩ ∧
    chatHandler st u (some "") =
      ⟨some (ChatResponse.badRequest "No message provided."), st, false⟩ ∧
    processStep s raw = ⟨s, false, false, false, none, []⟩ := by
  refine ⟨rfl, rfl, ?_⟩
  rw [processStep]
  simp [hws]

/-- Witness for the amended C5 with whitespace-only front-end input. -/
theorem empty_rejected_whitespace_dropped_witness :
    chatHandler ⟨true, 10, 0, []⟩ (fun _ => SendOutcome.success "r") none =
      ⟨some (ChatResponse.badRequest "No message provided."), ⟨true, 10, 0, []⟩, false⟩ ∧
    chatHandler ⟨true, 10, 0, []⟩ (fun _ => SendOutcome.success "r") (some "") =
      ⟨some (ChatResponse.badRequest "No message provided."), ⟨true, 10, 0, []⟩, false⟩ ∧
    processStep 1 (("   ").toList) = ⟨1, false, false, false, none, []⟩ :=
  empty_rejected_whitespace_dropped ⟨true, 10, 0, []⟩
    (fun _ => SendOutcome.success "r") 1 (("   ").toList) (by decide)

/-- C8: when the relay fails terminally on a turn with a healthy
established store, a diagnostic row under the System sender literal of
server.js line 126 recording the failed message is appended to the
transcript, in the same handler run that then returns the generic 500
error — whose text is a constant not mentioning the upstream cause. -/
theorem relay_failure_system_record (st : StoreState) (u : Upstream) (m : String)
    (e : RelayError) (hm : m ≠ "") (hc : st.connected = true)
    (hcap : st.ops + 2 ≤ st.failFrom) (hu : (sendMessageWithRetry u).1 = Except.error e) :
    (chatHandler st u (some m)).response =
      some (ChatResponse.serverError "Internal server error. Please try again.") ∧
    (chatHandler st u (some m)).store.rows =
      st.rows ++ [("User", m), ("System Error", "Failed to get Gemini response for: " ++ m)] := by
  rcases hrun : sendMessageWithRetry u with ⟨r, tr⟩
  rw [hrun] at hu
  simp only at hu
  subst hu
  have h1 := saveMessage_connected_ok st hc (by omega) "User" m
  have h2 := saveMessage_connected_ok
    { st with ops := st.ops + 1, rows := st.rows ++ [("User", m)] } (by simpa using hc)
    (by simp; omega) "System Error" ("Failed to get Gemini response for: " ++ m)
  simp only [chatHandler, if_neg hm, h1, hrun, chatCatch, h2]
  simp

/-- Witness for C8 with a non-transient upstream rejection. -/
theorem relay_failure_system_record_witness :
    (chatHandler ⟨true, 10, 0, []⟩ (fun _ => SendOutcome.httpError 404)
        (some "hi")).response =
      some (ChatResponse.serverError "Internal server error. Please try again.") ∧
    (chatHandler ⟨true, 10, 0, []⟩ (fun _ => SendOutcome.httpError 404)
        (some "hi")).store.rows =
      [("User", "hi"), ("System Error", "Failed to get Gemini response for: hi")] :=
  relay_failure_system_record ⟨true, 10, 0, []⟩ (fun _ => SendOutcome.httpError 404)
    "hi" (RelayError.nonTransient 404) (by decide) rfl (by decide) rfl

/-- C9: while the store is not yet initialized, the admin conversations
endpoint answers 503 with an error body and issues no query. -/
theorem admin_store_uninitialized_503 (st : StoreState) (hc : st.connected = false) :
    adminHandler st = (AdminResponse.err 503 "Database not ready.", false) := by
  rw [adminHandler, if_pos (by simp [hc])]

/-- Witness for C9. -/
theorem admin_store_uninitialized_503_witness :
    adminHandler ⟨false, 5, 0, []⟩ = (AdminResponse.err 503 "Database not ready.", false) :=
  admin_store_uninitialized_503 ⟨false, 5, 0, []⟩ rfl

/-- C10: when the store connection is not established, `saveMessage`
returns successfully without raising and without persisting, so a chat
turn completes with a success response carrying the reply while neither
the user message nor the bot reply is recorded in the transcript. -/
theorem saveMessage_noop_when_disconnected (st : StoreState) (u : Upstream)
    (sender message m t : String) (hc : st.connected = false) (hm : m ≠ "")
    (hu : (sendMessageWithRetry u).1 = Except.ok t) :
    saveMessage st sender message = Except.ok st ∧
    (chatHandler st u (some m)).response = some (ChatResponse.ok t) ∧
    (chatHandler st u (some m)).store.rows = st.rows := by
  refine ⟨saveMessage_disconnected st hc sender message, ?_, ?_⟩ <;>
    rw [chatHandler_disconnected_ok st u m t hm hc hu]

/-- Witness for C10. -/
theorem saveMessage_noop_when_disconnected_witness :
    saveMessage ⟨false, 0, 0, []⟩ "User" "hello" = Except.ok ⟨false, 0, 0, []⟩ ∧
    (chatHandler ⟨false, 0, 0, []⟩ (fun _ => SendOutcome.success "wave")
        (some "hello")).response = some (ChatResponse.ok "wave") ∧
    (chatHandler ⟨false, 0, 0, []⟩ (fun _ => SendOutcome.success "wave")
        (some "hello")).store.rows = ([] : List (String × String)) :=
  saveMessage_noop_when_disconnected ⟨false, 0, 0, []⟩
    (fun _ => SendOutcome.success "wave") "User" "hello" "hello" "wave" rfl (by decide) rfl

/-! ### C6 and C7: the front-end stage machine -/

/-- C6: at the last challenge stage, an input containing an accepted
answer short-circuits the turn: the stage reaches the terminal value,
the terminal sequence (confirmation notice, then after a fixed delay
the reveal image, then after a further fixed delay the final unlock
message) is emitted, and the backend relay is not contacted. -/
theorem terminal_sequence_shortcircuit (raw : Str) (hne : jsTrim raw ≠ [])
    (hmatch : ContainsAccepted 3 (jsTrim raw)) :
    processStep 3 raw = ⟨4, true, true, false, none, terminalSequence⟩ := by
  rw [processStep]
  simp only [if_neg hne]
  rw [if_pos (by decide), if_pos ((anyMatch_iff 3 (jsTrim raw)).2 hmatch), if_pos (by decide)]

/-- Witness for C6 at the final-password input. -/
theorem terminal_sequence_shortcircuit_witness :
    processStep 3 (("[FINAL PASSWORD KEYWORD]").toList) =
      ⟨4, true, true, false, none, terminalSequence⟩ :=
  terminal_sequence_shortcircuit (("[FINAL PASSWORD KEYWORD]").toList) (by decide)
    ⟨("[FINAL PASSWORD KEYWORD]").toList, by decide, [], [], by decide⟩

/-- Each front-end turn either advances the stage by exactly one, on an
accepted answer, or leaves it unchanged. -/
theorem processStep_newStage (s : Nat) (raw : Str) :
    (processStep s raw).newStage = if (processStep s raw).accepted = true then s + 1 else s := by
  by_cases h1 : jsTrim raw = []
  · simp [processStep, h1]
  · by_cases h2 : s < answers.length
    · by_cases h3 : ((answers.getD s []).any fun kw =>
          jsIncludes (jsToLower (jsTrim raw)) (jsToLower kw)) = true
      · by_cases h4 : s + 1 = prompts.length
        · simp only [processStep]
          rw [if_neg h1, if_pos h2, if_pos h3, if_pos h4]
          simp
        · simp only [processStep]
          rw [if_neg h1, if_pos h2, if_pos h3, if_neg h4]
          simp
      · simp only [processStep]
        rw [if_neg h1, if_pos h2, if_neg h3]
        simp
    · simp only [processStep]
      rw [if_neg h1, if_neg h2]
      simp

/-- An answer is only accepted while the stage indexes a challenge. -/
theorem processStep_accepted_lt (s : Nat) (raw : Str) :
    (processStep s raw).accepted = true → s < answers.length := by
  by_cases h2 : s < answers.length
  · intro _
    exact h2
  · by_cases h1 : jsTrim raw = []
    · simp [processStep, h1]
    · simp [processStep, h1, h2]

/-- Once the stage has passed the challenge list, the gatekeeper is no
longer evaluated. -/
theorem processStep_terminal_not_evaluated (s : Nat) (raw : Str)
    (h : answers.length ≤ s) : (processStep s raw).evaluated = false := by
  have h2 : ¬ s < answers.length := by omega
  by_cases h1 : jsTrim raw = []
  · simp [processStep, h1]
  · simp [processStep, h1, h2]

/-- The stage never decreases across a sequence of turns. -/
theorem runStages_mono : ∀ (inputs : List Str) (s : Nat), s ≤ runStages s inputs
  | [], s => Nat.le_refl s
  | raw :: rest, s => by
    have h1 : s ≤ (processStep s raw).newStage := by
      rw [processStep_newStage]
      split <;> omega
    exact Nat.le_trans h1 (runStages_mono rest _)

/-- The stage never exceeds the terminal value across a sequence of
turns. -/
theorem runStages_le : ∀ (inputs : List Str) (s : Nat),
    s ≤ answers.length → runStages s inputs ≤ answers.length
  | [], s, h => h
  | raw :: rest, s, h => by
    apply runStages_le rest
    rw [processStep_newStage]
    split
    · next hacc => exact processStep_accepted_lt s raw hacc
    · exact h

/-- C7: over every sequence of turns the stage is monotonically
non-decreasing, moves up by exactly one on an accepted answer and by
zero otherwise, never exceeds the terminal value, and once the terminal
value is reached the gatekeeper is no longer evaluated. -/
theorem stage_monotone_invariants (s : Nat) (raw : Str) (inputs : List Str) :
    (processStep s raw).newStage =
        (if (processStep s raw).accepted = true then s + 1 else s) ∧
    ((processStep s raw).accepted = true → s < answers.length) ∧
    (answers.length ≤ s → (processStep s raw).evaluated = false) ∧
    s ≤ runStages s inputs ∧
    (s ≤ answers.length → runStages s inputs ≤ answers.length) :=
  ⟨processStep_newStage s raw, processStep_accepted_lt s raw,
    processStep_terminal_not_evaluated s raw, runStages_mono inputs s, runStages_le inputs s⟩

/-- Witness for C7: the terminal stage is never evaluated and a played
run stays within the terminal bound. -/
theorem stage_monotone_invariants_witness :
    (processStep 4 (("hello").toList)).evaluated = false ∧
    runStages 0 [("start").toList, ("banana").toList] ≤ answers.length :=
  ⟨((stage_monotone_invariants 4 (("hello").toList) []).2.2.1 (by decide)),
    ((stage_monotone_invariants 0 (("start").toList)
      [("start").toList, ("banana").toList]).2.2.2.2 (by decide))⟩

end BirthdayBot
